import Mathlib

set_option maxHeartbeats 1000000

/-! Verification of the URL allowlist, the server-side auth guard, and the
AI-flow error handling of the colater web application.

JavaScript strings are modelled as Lean `String`, and the string operations
the code uses (`String.prototype.startsWith`, `String.prototype.endsWith`,
`===`, and the ASCII case folding performed by a case-insensitive regex)
are defined over the underlying character lists.

The platform builtin `new URL(url)` (WHATWG URL parsing) is not repository
code; functions that depend on it take the parser as an explicit argument
`parse : String → Option String` returning the parsed hostname, `none`
modelling a thrown `TypeError`.  A concrete executable model `jsHostname`
of the builtin is provided for evaluating the functions on concrete
inputs. -/

/-- ASCII lower-casing of a single character: `A`..`Z` map to `a`..`z`,
every other character is unchanged.  This is exactly the canonicalisation a
JavaScript case-insensitive regex without the `u` flag applies to the ASCII
letters of a pattern. -/
def asciiLowerChar (c : Char) : Char :=
  if 'A' ≤ c ∧ c ≤ 'Z' then Char.ofNat (c.toNat + 32) else c

/-- ASCII lower-casing of a string, character by character. -/
def asciiLower (s : String) : String :=
  ⟨s.data.map asciiLowerChar⟩

/-- Model of JavaScript `s.startsWith(p)`. -/
def jsStartsWith (s p : String) : Bool :=
  p.data.isPrefixOf s.data

/-- Model of JavaScript `s.endsWith(p)`. -/
def jsEndsWith (s p : String) : Bool :=
  p.data.isSuffixOf s.data

/-- `ALLOWED_HOSTS` from `src/lib/server-auth.ts`, in source order. -/
def ALLOWED_HOSTS : List String :=
  [ "firebasestorage.googleapis.com"
  , "storage.googleapis.com"
  , ".r2.dev"
  , ".fal.media"
  , ".fal.ai"
  , ".replicate.delivery"
  , ".replicate.com" ]

/-- The allowlist test of `isAllowedUrl`:
`ALLOWED_HOSTS.some(h => h.startsWith('.') ? parsed.hostname.endsWith(h) :
parsed.hostname === h)`. -/
def allowedHost (hostname : String) : Bool :=
  ALLOWED_HOSTS.any (fun h =>
    if jsStartsWith h "." then jsEndsWith hostname h else hostname == h)

/-- The regex `/^https?:\/\/localhost/i` tested on the raw url string: a
case-insensitive match of prefix `http://localhost` or `https://localhost`
(`^` anchors at position 0; `test` with no `m` flag only matches there). -/
def blockedLocalhost (url : String) : Bool :=
  jsStartsWith (asciiLower url) "http://localhost" ||
  jsStartsWith (asciiLower url) "https://localhost"

/-- The regex `/^https?:\/\/127\./`: prefix `http://127.` or `https://127.`. -/
def blocked127 (url : String) : Bool :=
  jsStartsWith url "http://127." || jsStartsWith url "https://127."

/-- The regex `/^https?:\/\/10\./`: prefix `http://10.` or `https://10.`. -/
def blocked10 (url : String) : Bool :=
  jsStartsWith url "http://10." || jsStartsWith url "https://10."

/-- The finite language of the anchored regex
`/^https?:\/\/172\.(1[6-9]|2\d|3[01])\./`: the group denotes the decimal
octets 16 through 31, so the regex matches exactly the prefixes
`http://172.N.` and `https://172.N.` for N in 16..31. -/
def blocked172Starts : List String :=
  [ "http://172.16.", "https://172.16."
  , "http://172.17.", "https://172.17."
  , "http://172.18.", "https://172.18."
  , "http://172.19.", "https://172.19."
  , "http://172.20.", "https://172.20."
  , "http://172.21.", "https://172.21."
  , "http://172.22.", "https://172.22."
  , "http://172.23.", "https://172.23."
  , "http://172.24.", "https://172.24."
  , "http://172.25.", "https://172.25."
  , "http://172.26.", "https://172.26."
  , "http://172.27.", "https://172.27."
  , "http://172.28.", "https://172.28."
  , "http://172.29.", "https://172.29."
  , "http://172.30.", "https://172.30."
  , "http://172.31.", "https://172.31." ]

/-- The regex `/^https?:\/\/172\.(1[6-9]|2\d|3[01])\./` tested on the raw
url string. -/
def blocked172 (url : String) : Bool :=
  blocked172Starts.any (fun p => jsStartsWith url p)

/-- The regex `/^https?:\/\/192\.168\./`. -/
def blocked192 (url : String) : Bool :=
  jsStartsWith url "http://192.168." || jsStartsWith url "https://192.168."

/-- The regex `/^https?:\/\/169\.254\./`. -/
def blocked169 (url : String) : Bool :=
  jsStartsWith url "http://169.254." || jsStartsWith url "https://169.254."

/-- The regex `/^https?:\/\/0\./`. -/
def blocked0 (url : String) : Bool :=
  jsStartsWith url "http://0." || jsStartsWith url "https://0."

/-- The regex `/^https?:\/\/\[::1\]/`. -/
def blockedV6 (url : String) : Bool :=
  jsStartsWith url "http://[::1]" || jsStartsWith url "https://[::1]"

/-- `BLOCKED_PATTERNS` from `src/lib/server-auth.ts`, in source order, each
regex replaced by its exact prefix-matching semantics on the tested
string. -/
def BLOCKED_PATTERNS : List (String → Bool) :=
  [blockedLocalhost, blocked127, blocked10, blocked172,
   blocked192, blocked169, blocked0, blockedV6]

/-- `BLOCKED_PATTERNS.some(p => p.test(url))`. -/
def blockedSome (url : String) : Bool :=
  BLOCKED_PATTERNS.any (fun p => p url)

/-- `isAllowedUrl` from `src/lib/server-auth.ts`, with the `new URL`
builtin abstracted as `parse` (returning the parsed hostname, `none` when
the constructor throws).  The raw-string blocked-pattern test happens after
parsing succeeds, exactly as in the source. -/
def isAllowedUrl (parse : String → Option String) (url : String) : Bool :=
  if jsStartsWith url "data:" then true
  else
    match parse url with
    | some hostname => if blockedSome url then false else allowedHost hostname
    | none => false

/-- ASCII letter test. -/
def isAlphaAscii (c : Char) : Bool :=
  ('a' ≤ c && c ≤ 'z') || ('A' ≤ c && c ≤ 'Z')

/-- ASCII digit test. -/
def isDigitAscii (c : Char) : Bool :=
  '0' ≤ c && c ≤ '9'

/-- ASCII hexadecimal digit test. -/
def isHexAscii (c : Char) : Bool :=
  isDigitAscii c || ('a' ≤ c && c ≤ 'f') || ('A' ≤ c && c ≤ 'F')

/-- Characters allowed after the first character of a URL scheme. -/
def isSchemeChar (c : Char) : Bool :=
  isAlphaAscii c || isDigitAscii c || c == '+' || c == '-' || c == '.'

/-- Splits `scheme ':' rest`: returns the run of scheme characters before
the first `:` and the remainder after it, `none` when the input has no
colon terminating such a run. -/
def splitScheme : List Char → Option (List Char × List Char)
  | [] => none
  | c :: cs =>
    if c == ':' then some ([], cs)
    else if isSchemeChar c then
      match splitScheme cs with
      | some (s, r) => some (c :: s, r)
      | none => none
    else none

/-- After a special scheme's colon the WHATWG parser skips any run of
slashes and backslashes before the authority. -/
def dropSlashes (l : List Char) : List Char :=
  l.dropWhile (fun c => c == '/' || c == '\\')

/-- Characters ending the authority component: `/`, `?`, `#`, and for
special schemes also `\`. -/
def authorityEndChar (special : Bool) (c : Char) : Bool :=
  c == '/' || c == '?' || c == '#' || (special && c == '\\')

/-- The authority component: the longest run not containing an
authority-ending character. -/
def takeAuthority (special : Bool) (l : List Char) : List Char :=
  l.takeWhile (fun c => !authorityEndChar special c)

/-- The host-and-port part of an authority: everything after the last `@`
(the userinfo, when present, is everything before it). -/
def afterLastAt (l : List Char) : List Char :=
  (l.reverse.takeWhile (fun c => c != '@')).reverse

/-- The WHATWG forbidden host code points, together with `%` and all
non-ASCII characters: the model omits percent-decoding and IDNA, so hosts
needing them are rejected rather than mis-parsed. -/
def isForbiddenHostChar (c : Char) : Bool :=
  c == Char.ofNat 0 || c == '\t' || c == '\n' || c == '\r' || c == ' ' ||
  c == '#' || c == '/' || c == ':' || c == '<' || c == '>' || c == '?' ||
  c == '@' || c == '[' || c == '\\' || c == ']' || c == '^' || c == '|' ||
  c == '%' || 128 ≤ c.toNat

/-- Characters an IPv6 host literal may contain between its brackets. -/
def isIpv6Char (c : Char) : Bool :=
  isHexAscii c || c == ':' || c == '.'

/-- What may follow the host inside the authority: nothing, or `:` and a
run of ASCII digits (the port). -/
def validPortTail : List Char → Bool
  | [] => true
  | ':' :: p => p.all isDigitAscii
  | _ => false

/-- Parses the host-port part of an authority, returning the hostname.
Bracketed IPv6 literals are returned with their brackets; domains are
ASCII-lowercased; special schemes require a non-empty host. -/
def parseHostPort (special : Bool) (l : List Char) : Option (List Char) :=
  match l with
  | '[' :: rest =>
    let inside := rest.takeWhile (fun c => c != ']')
    match rest.dropWhile (fun c => c != ']') with
    | ']' :: tail =>
      if !inside.isEmpty && inside.all isIpv6Char && validPortTail tail then
        some ('[' :: (inside ++ [']']))
      else none
    | _ => none
  | _ =>
    let host := l.takeWhile (fun c => c != ':')
    if validPortTail (l.dropWhile (fun c => c != ':')) &&
        host.all (fun c => !isForbiddenHostChar c) &&
        (!special || !host.isEmpty) then
      some (host.map asciiLowerChar)
    else none

/-- Model of the hostname computed by the platform builtin `new URL(url)`
(WHATWG URL parsing), which is not repository code: `some hostname` when
the constructor succeeds, `none` when it throws.  The model covers the
scheme/authority/host/port grammar used by the repository's URLs:
`http`/`https` URLs (whose authority follows any run of slashes after the
colon) and non-special schemes (hostname after a literal `//`, otherwise
the empty hostname of an opaque path).  Simplifications, each marked where
it lives: hosts needing percent-decoding or IDNA are rejected by
`isForbiddenHostChar` instead of being decoded; IPv4-address and IPv6
canonicalisation are omitted, so the model is only applied to hosts
already in canonical form; port values above 65535 are not rejected;
leading and trailing control characters are not trimmed. -/
def jsHostname (url : String) : Option String :=
  match splitScheme url.data with
  | none => none
  | some (scheme, rest) =>
    match scheme with
    | [] => none
    | c :: _ =>
      if !isAlphaAscii c then none
      else if scheme.map asciiLowerChar == "http".data ||
          scheme.map asciiLowerChar == "https".data then
        match parseHostPort true (afterLastAt (takeAuthority true (dropSlashes rest))) with
        | some h => some ⟨h⟩
        | none => none
      else
        match rest with
        | '/' :: '/' :: rest2 =>
          match parseHostPort false (afterLastAt (takeAuthority false rest2)) with
          | some h => some ⟨h⟩
          | none => none
        | _ => some ""

/-- The hostname-anchored blocked patterns of the hardening plan
(`docs/plans/2026-02-26-codebase-hardening-plan.md`), tested against
`parsed.hostname`: `/^localhost$/i` (a full case-insensitive match),
`/^127\./`, `/^10\./`, `/^172\.(1[6-9]|2\d|3[01])\./`, `/^192\.168\./`,
`/^169\.254\./`, `/^0\./`, `/^\[::1\]/`, each anchored regex replaced by
its exact matching semantics on the hostname. -/
def planBlockedHost (host : String) : Bool :=
  asciiLower host == "localhost" ||
  jsStartsWith host "127." ||
  jsStartsWith host "10." ||
  (["172.16.", "172.17.", "172.18.", "172.19.", "172.20.", "172.21.",
    "172.22.", "172.23.", "172.24.", "172.25.", "172.26.", "172.27.",
    "172.28.", "172.29.", "172.30.", "172.31."].any (fun p => jsStartsWith host p)) ||
  jsStartsWith host "192.168." ||
  jsStartsWith host "169.254." ||
  jsStartsWith host "0." ||
  jsStartsWith host "[::1]"

/-- `isAllowedUrl` as specified in the hardening plan: identical to the
shipped version except that the blocked patterns are hostname-anchored and
tested against the parsed hostname rather than the raw url string. -/
def isAllowedUrlPlan (parse : String → Option String) (url : String) : Bool :=
  if jsStartsWith url "data:" then true
  else
    match parse url with
    | some hostname => if planBlockedHost hostname then false else allowedHost hostname
    | none => false

/-- The url beginnings described by the SSRF claim: `http://H...` or
`https://H...` where `H` is a loopback or private-network address literal
(`localhost`, `127.*`, `10.*`, `172.16-31.*`, `192.168.*`, `169.254.*`,
`0.*`, or `[::1]`). -/
def claimPrivateUrlStarts : List String :=
  [ "http://localhost", "https://localhost"
  , "http://127.", "https://127."
  , "http://10.", "https://10."
  , "http://172.16.", "https://172.16."
  , "http://172.17.", "https://172.17."
  , "http://172.18.", "https://172.18."
  , "http://172.19.", "https://172.19."
  , "http://172.20.", "https://172.20."
  , "http://172.21.", "https://172.21."
  , "http://172.22.", "https://172.22."
  , "http://172.23.", "https://172.23."
  , "http://172.24.", "https://172.24."
  , "http://172.25.", "https://172.25."
  , "http://172.26.", "https://172.26."
  , "http://172.27.", "https://172.27."
  , "http://172.28.", "https://172.28."
  , "http://172.29.", "https://172.29."
  , "http://172.30.", "https://172.30."
  , "http://172.31.", "https://172.31."
  , "http://192.168.", "https://192.168."
  , "http://169.254.", "https://169.254."
  , "http://0.", "https://0."
  , "http://[::1]", "https://[::1]" ]

/-- The bare apex domains of the dot-prefixed `ALLOWED_HOSTS` entries. -/
def apexDomains : List String :=
  ["r2.dev", "fal.media", "fal.ai", "replicate.delivery", "replicate.com"]

/-- The decoded token returned by the Firebase Admin SDK's
`verifyIdToken`; only its `uid` field is used. -/
structure DecodedIdToken where
  uid : String

/-- Model of the third-party Firebase Admin SDK auth object: `verifyIdToken`
returns `some` decoded token when the promise resolves and `none` when it
rejects. -/
structure AdminAuth where
  verifyIdToken : String → Option DecodedIdToken

/-- Outcome of an async server function: a returned value or a thrown
`Error` with its message. -/
inductive AuthOutcome where
  | ok (uid : String)
  | thrown (msg : String)
deriving DecidableEq

/-- `requireServerAuth` from `src/lib/server-auth.ts`, with the imported
`adminAuth` (possibly null) and the third-party SDK abstracted as
arguments.  `!idToken` is true exactly for the empty string, `idToken`
being a string. -/
def requireServerAuth (adminAuth : Option AdminAuth) (idToken : String) : AuthOutcome :=
  match adminAuth with
  | none => .thrown "Firebase Admin SDK not initialized"
  | some auth =>
    if idToken == "" then .thrown "Authentication required"
    else
      match auth.verifyIdToken idToken with
      | some decoded => .ok decoded.uid
      | none => .thrown "Invalid or expired authentication token"

/-- The fallback suggestion list of `generateAudienceSuggestions`. -/
def fallbackSuggestions : List String :=
  ["Tech Professionals", "Young Parents", "Fitness Enthusiasts", "Eco-conscious Foodies"]

/-- The output shape of `generateAudienceSuggestions`
(`GenerateAudienceSuggestionsOutputSchema`). -/
structure AudienceOutput where
  suggestions : List String
deriving DecidableEq

/-- Model of the genkit call `ai.generate` with
`output: ⟨schema: GenerateAudienceSuggestionsOutputSchema⟩` as used in
`src/ai/flows/generate-audience-suggestions.ts`: the zod schema
`z.array(z.string()).length(4)` accepts exactly the string arrays of
length 4, so a structured model output only becomes a validated
`result.output` when it has length 4; schema-invalid output makes the call
fail.  `Except.error` models a rejected call, `Except.ok none` a resolved
call whose `output` is absent. -/
def aiGenerateWithSchema (modelOutput : Except Unit (Option (List String))) :
    Except Unit (Option AudienceOutput) :=
  match modelOutput with
  | .error e => .error e
  | .ok none => .ok none
  | .ok (some raw) => if raw.length == 4 then .ok (some ⟨raw⟩) else .error ()

/-- `generateAudienceSuggestions` from
`src/ai/flows/generate-audience-suggestions.ts`, with the awaited
`ai.generate` call abstracted as its outcome: a rejection (`Except.error`)
and an absent `result.output` (`Except.ok none`) both reach the catch
block and return the hardcoded fallback; otherwise `result.output` is
returned. -/
def generateAudienceSuggestions (gen : Except Unit (Option AudienceOutput)) : AudienceOutput :=
  match gen with
  | .error _ => ⟨fallbackSuggestions⟩
  | .ok none => ⟨fallbackSuggestions⟩
  | .ok (some output) => output

/-- An error thrown by the fal client or by `fetch`: `body` is
`JSON.stringify(err.body)` when `err.body` is present, `message` the error
message. -/
structure FalError where
  body : Option String
  message : String

/-- `err.body ? JSON.stringify(err.body) : err.message` from the catch
block of `vectoriseLogo`. -/
def falErrorDetails (e : FalError) : String :=
  match e.body with
  | some b => b
  | none => e.message

/-- Model of a `fetch` response: `ok` flag, `statusText`, the
`content-type` header, and the body's base64 encoding. -/
structure FetchResponse where
  ok : Bool
  statusText : String
  contentType : Option String
  bodyBase64 : String

/-- The external world `vectoriseLogo` interacts with: the `FAL_KEY`
environment variable, the outcome of the `fal.subscribe` call (its
`result.data?.image?.url`, `none` when the image or url is absent), and
the outcome of fetching a given url. -/
structure FalWorld where
  falKey : Option String
  subscribeImageUrl : Except FalError (Option String)
  fetchUrl : String → Except FalError FetchResponse

/-- Outcome of `vectoriseLogo`: a returned value or a thrown `Error` with
its message. -/
inductive VecOutcome where
  | ok (vectorLogoUrl : String)
  | thrown (msg : String)
deriving DecidableEq

/-- `vectoriseLogo` from `src/ai/flows/vectorise-logo.ts`, with the
external calls abstracted as a `FalWorld`.  `!process.env.FAL_KEY` is true
when the variable is absent or empty.  Every throw inside the try block
(the subscribe call rejecting, a missing or empty image url, the fetch
rejecting, a non-ok response) lands in the catch block, which rethrows
`Fal vectorization failed: ` followed by the details of the caught error;
for the two Errors thrown by the function's own code the details are their
message, their `body` being absent. -/
def vectoriseLogo (w : FalWorld) (logoUrl : String) : VecOutcome :=
  if w.falKey.getD "" == "" then .thrown "FAL_KEY environment variable is not set"
  else
    match w.subscribeImageUrl with
    | .error e => .thrown ("Fal vectorization failed: " ++ falErrorDetails e)
    | .ok none => .thrown ("Fal vectorization failed: " ++ "Fal did not return an image URL.")
    | .ok (some vectorUrl) =>
      if vectorUrl == "" then
        .thrown ("Fal vectorization failed: " ++ "Fal did not return an image URL.")
      else
        match w.fetchUrl vectorUrl with
        | .error e => .thrown ("Fal vectorization failed: " ++ falErrorDetails e)
        | .ok response =>
          if !response.ok then
            .thrown ("Fal vectorization failed: " ++
              ("Failed to fetch generated vector: " ++ response.statusText))
          else
            .ok ("data:" ++
              (if response.contentType.getD "" == "" then "image/svg+xml"
               else response.contentType.getD "") ++
              ";base64," ++ response.bodyBase64)

/-- A concrete Admin SDK model accepting one token, for evaluating
`requireServerAuth` on concrete inputs. -/
def sampleAdminAuth : AdminAuth :=
  ⟨fun t => if t == "good-token" then some ⟨"user-1"⟩ else none⟩

/-- A concrete world with `FAL_KEY` absent and a succeeding subscribe
call. -/
def worldNoKeyA : FalWorld :=
  ⟨none, .ok (some "https://v3.fal.media/files/a.svg"),
   fun _ => .error ⟨none, "unreachable"⟩⟩

/-- A concrete world with `FAL_KEY` absent and a failing subscribe call. -/
def worldNoKeyB : FalWorld :=
  ⟨none, .error ⟨some "overloaded", "err"⟩,
   fun _ => .ok ⟨true, "OK", some "image/svg+xml", "AAAA"⟩⟩

/-- A concrete world with `FAL_KEY` set whose subscribe call rejects. -/
def worldSubscribeRejects : FalWorld :=
  ⟨some "fal-key", .error ⟨none, "boom"⟩, fun _ => .error ⟨none, "unreachable"⟩⟩

/-! ### Helper lemmas -/

lemma jsStartsWith_of_asciiLower (s p : String) (h : jsStartsWith s p = true) :
    jsStartsWith (asciiLower s) (asciiLower p) = true := by
  unfold jsStartsWith asciiLower at *
  rw [List.isPrefixOf_iff_prefix] at h ⊢
  exact h.map asciiLowerChar

lemma jsStartsWith_false_of_head_ne (s p q : String) (c d : Char)
    (hp : p.data.head? = some c) (hq : q.data.head? = some d) (hne : d ≠ c)
    (h : jsStartsWith s p = true) : jsStartsWith s q = false := by
  unfold jsStartsWith at *
  rw [List.isPrefixOf_iff_prefix] at h
  rw [Bool.eq_false_iff]
  intro hcon
  rw [List.isPrefixOf_iff_prefix] at hcon
  have h1 : s.data.head? = some c := by
    cases hpd : p.data with
    | nil => simp [hpd] at hp
    | cons a l =>
      rw [hpd] at hp h
      obtain ⟨t, ht⟩ := h
      rw [← ht]
      simpa using hp
  have h2 : s.data.head? = some d := by
    cases hqd : q.data with
    | nil => simp [hqd] at hq
    | cons b m =>
      rw [hqd] at hq hcon
      obtain ⟨t, ht⟩ := hcon
      rw [← ht]
      simpa using hq
  rw [h1] at h2
  have h3 : c = d := by simpa using h2
  exact hne h3.symm

lemma jsStartsWith_append_left (p r : String) : jsStartsWith (p ++ r) p = true := by
  unfold jsStartsWith
  rw [String.data_append, List.isPrefixOf_iff_prefix]
  exact List.prefix_append _ _

lemma blockedSome_of_pattern (url : String) (f : String → Bool)
    (hf : f ∈ BLOCKED_PATTERNS) (hv : f url = true) : blockedSome url = true := by
  unfold blockedSome
  rw [List.any_eq_true]
  exact ⟨f, hf, hv⟩

lemma isAllowedUrl_false_of_blocked (parse : String → Option String) (url : String)
    (hd : jsStartsWith url "data:" = false) (hb : blockedSome url = true) :
    isAllowedUrl parse url = false := by
  unfold isAllowedUrl
  simp only [hd, Bool.false_eq_true, if_false]
  cases parse url with
  | none => rfl
  | some hostname => simp [hb]

lemma blockedLocalhost_of_http (url : String)
    (h : jsStartsWith url "http://localhost" = true) : blockedLocalhost url = true := by
  unfold blockedLocalhost
  have h2 := jsStartsWith_of_asciiLower url "http://localhost" h
  rw [show asciiLower "http://localhost" = "http://localhost" from by decide] at h2
  rw [h2, Bool.true_or]

lemma blockedLocalhost_of_https (url : String)
    (h : jsStartsWith url "https://localhost" = true) : blockedLocalhost url = true := by
  unfold blockedLocalhost
  have h2 := jsStartsWith_of_asciiLower url "https://localhost" h
  rw [show asciiLower "https://localhost" = "https://localhost" from by decide] at h2
  rw [h2, Bool.or_true]

lemma blockedSome_of_raw (url p : String) (h : jsStartsWith url p = true)
    (hp : p ∈ ["http://127.", "https://127.", "http://10.", "https://10."] ++
      blocked172Starts ++
      ["http://192.168.", "https://192.168.", "http://169.254.", "https://169.254.",
       "http://0.", "https://0.", "http://[::1]", "https://[::1]"]) :
    blockedSome url = true := by
  fin_cases hp <;>
    simp_all [blockedSome, BLOCKED_PATTERNS, blocked127, blocked10, blocked172,
      blocked172Starts, blocked192, blocked169, blocked0, blockedV6]

lemma allowedHost_eq (host : String) :
    allowedHost host =
      (host == "firebasestorage.googleapis.com" ||
       (host == "storage.googleapis.com" ||
        (jsEndsWith host ".r2.dev" ||
         (jsEndsWith host ".fal.media" ||
          (jsEndsWith host ".fal.ai" ||
           (jsEndsWith host ".replicate.delivery" ||
            (jsEndsWith host ".replicate.com" || false))))))) := rfl

/-! ### C1: characterization of isAllowedUrl -/

/-- C1: for every input string `url` and every parser, `isAllowedUrl url`
returns true if and only if either `url` starts with `data:`, or `url`
parses as a URL, the whole url string matches none of the eight
`BLOCKED_PATTERNS` regexes, and the parsed hostname either exactly equals
an `ALLOWED_HOSTS` entry not beginning with a dot
(`firebasestorage.googleapis.com` or `storage.googleapis.com`) or ends
with one of the dot-prefixed entries (`.r2.dev`, `.fal.media`, `.fal.ai`,
`.replicate.delivery`, `.replicate.com`). -/
theorem isAllowedUrl_iff (parse : String → Option String) (url : String) :
    isAllowedUrl parse url = true ↔
      (jsStartsWith url "data:" = true ∨
        ∃ hostname, parse url = some hostname ∧ blockedSome url = false ∧
          (hostname = "firebasestorage.googleapis.com" ∨
           hostname = "storage.googleapis.com" ∨
           jsEndsWith hostname ".r2.dev" = true ∨
           jsEndsWith hostname ".fal.media" = true ∨
           jsEndsWith hostname ".fal.ai" = true ∨
           jsEndsWith hostname ".replicate.delivery" = true ∨
           jsEndsWith hostname ".replicate.com" = true)) := by
  unfold isAllowedUrl
  cases hd : jsStartsWith url "data:" with
  | true => simp
  | false =>
    simp only [Bool.false_eq_true, if_false, false_or]
    cases hparse : parse url with
    | none => simp
    | some hostname =>
      cases hb : blockedSome url with
      | true => simp
      | false =>
        simp only [Bool.false_eq_true, if_false, Option.some.injEq]
        rw [allowedHost_eq]
        simp only [Bool.or_eq_true, Bool.or_false, beq_iff_eq, exists_eq_left',
          eq_self_iff_true, true_and]

/-! ### C2: private and loopback addresses are rejected -/

/-- C2: for every URL string of the form `http://H...` or `https://H...`
where `H` is a loopback or private-network address literal (`localhost`,
`127.*`, `10.*`, `172.16-31.*`, `192.168.*`, `169.254.*`, `0.*`, or
`[::1]`), `isAllowedUrl` returns false, whatever the URL parser does. -/
theorem isAllowedUrl_blocks_private (parse : String → Option String) (url p : String)
    (hp : p ∈ claimPrivateUrlStarts) (h : jsStartsWith url p = true) :
    isAllowedUrl parse url = false := by
  apply isAllowedUrl_false_of_blocked parse url
  · unfold claimPrivateUrlStarts at hp
    fin_cases hp <;>
      exact jsStartsWith_false_of_head_ne url _ "data:" 'h' 'd'
        (by decide) (by decide) (by decide) h
  · unfold claimPrivateUrlStarts at hp
    fin_cases hp <;>
      first
      | exact blockedSome_of_pattern url blockedLocalhost (by simp [BLOCKED_PATTERNS])
          (blockedLocalhost_of_http url h)
      | exact blockedSome_of_pattern url blockedLocalhost (by simp [BLOCKED_PATTERNS])
          (blockedLocalhost_of_https url h)
      | exact blockedSome_of_raw url _ h (by decide)

/-- Witness for C2: the cloud metadata endpoint url is rejected under the
concrete URL-parser model. -/
theorem isAllowedUrl_blocks_private_witness :
    "http://169.254." ∈ claimPrivateUrlStarts ∧
    jsStartsWith "http://169.254.169.254/latest/meta-data/" "http://169.254." = true ∧
    isAllowedUrl jsHostname "http://169.254.169.254/latest/meta-data/" = false :=
  ⟨by decide, by decide,
   isAllowedUrl_blocks_private jsHostname "http://169.254.169.254/latest/meta-data/"
     "http://169.254." (by decide) (by decide)⟩

/-! ### C3: the result is not a function of the parsed hostname alone -/

/-- C3 counterexample: two strings, neither beginning with `data:`, that
both parse (under the concrete URL-parser model) to the same hostname
`foo.r2.dev`, on which `isAllowedUrl` returns different booleans: the
blocked patterns are tested against the raw url string, and a `127.`-like
userinfo makes the first url match `/^https?:\/\/127\./` while its
hostname stays allowlisted. -/
theorem isAllowedUrl_not_hostname_only :
    jsStartsWith "https://127.x@foo.r2.dev/" "data:" = false ∧
    jsStartsWith "https://foo.r2.dev/" "data:" = false ∧
    jsHostname "https://127.x@foo.r2.dev/" = some "foo.r2.dev" ∧
    jsHostname "https://foo.r2.dev/" = some "foo.r2.dev" ∧
    isAllowedUrl jsHostname "https://127.x@foo.r2.dev/" = false ∧
    isAllowedUrl jsHostname "https://foo.r2.dev/" = true := by
  decide

/-- C3 amended: for any two non-`data:` strings that parse to the same
hostname and on which the raw-string `BLOCKED_PATTERNS` test agrees,
`isAllowedUrl` returns the same boolean (the result depends only on the
parsed hostname together with the raw-string blocked-pattern outcome, not
on any other part of the URL string). -/
theorem isAllowedUrl_hostname_blocked_extensional (parse : String → Option String)
    (u1 u2 host : String)
    (h1 : parse u1 = some host) (h2 : parse u2 = some host)
    (hd1 : jsStartsWith u1 "data:" = false) (hd2 : jsStartsWith u2 "data:" = false)
    (hb : blockedSome u1 = blockedSome u2) :
    isAllowedUrl parse u1 = isAllowedUrl parse u2 := by
  unfold isAllowedUrl
  simp only [hd1, hd2, Bool.false_eq_true, if_false, h1, h2, hb]

/-- Witness for the amended C3: a port and a different path do not change
the result. -/
theorem isAllowedUrl_hostname_blocked_extensional_witness :
    isAllowedUrl jsHostname "https://foo.r2.dev/a" =
      isAllowedUrl jsHostname "https://foo.r2.dev:8443/b" :=
  isAllowedUrl_hostname_blocked_extensional jsHostname
    "https://foo.r2.dev/a" "https://foo.r2.dev:8443/b" "foo.r2.dev"
    (by decide) (by decide) (by decide) (by decide) (by decide)

/-! ### C9: bare apex domains of dot-prefixed entries are rejected -/

/-- C9 counterexample: `data:` is a non-special scheme, so
`data://r2.dev/x` parses with hostname exactly the bare apex `r2.dev`,
yet `isAllowedUrl` returns true through the `data:` early return before
any hostname check: the claim as stated, with no restriction on the
scheme, is false. -/
theorem isAllowedUrl_apex_data_scheme :
    jsHostname "data://r2.dev/x" = some "r2.dev" ∧
    "r2.dev" ∈ apexDomains ∧
    isAllowedUrl jsHostname "data://r2.dev/x" = true := by
  decide

/-- C9 amended: for every URL not beginning with `data:` whose parsed
hostname is exactly one of the bare apex domains of the dot-prefixed
allowlist entries (`r2.dev`, `fal.media`, `fal.ai`, `replicate.delivery`,
`replicate.com`), `isAllowedUrl` returns false: dot-prefixed entries
match only proper subdomains and exact entries match none of these
hosts. -/
theorem isAllowedUrl_rejects_apex (parse : String → Option String) (url host : String)
    (hd : jsStartsWith url "data:" = false) (hp : parse url = some host)
    (hmem : host ∈ apexDomains) :
    isAllowedUrl parse url = false := by
  unfold isAllowedUrl
  simp only [hd, Bool.false_eq_true, if_false, hp]
  cases hb : blockedSome url with
  | true => simp
  | false =>
    simp only [Bool.false_eq_true, if_false]
    unfold apexDomains at hmem
    fin_cases hmem <;> decide

/-- Witness for C9 at the bare `r2.dev` apex. -/
theorem isAllowedUrl_rejects_apex_witness :
    jsHostname "https://r2.dev/x" = some "r2.dev" ∧
    isAllowedUrl jsHostname "https://r2.dev/x" = false :=
  ⟨by decide,
   isAllowedUrl_rejects_apex jsHostname "https://r2.dev/x" "r2.dev"
     (by decide) (by decide) (by decide)⟩

/-! ### C10: totality and the catch branch -/

/-- C10: `isAllowedUrl` is total by construction (the embedding returns a
boolean for every input string and every parser), and every input that
does not begin with `data:` and is not parseable as a URL yields `false`
via the catch branch. -/
theorem isAllowedUrl_unparseable_false (parse : String → Option String) (url : String)
    (hd : jsStartsWith url "data:" = false) (hp : parse url = none) :
    isAllowedUrl parse url = false := by
  unfold isAllowedUrl
  simp only [hd, Bool.false_eq_true, if_false, hp]

/-- Witness for C10 on garbage input under the concrete parser model. -/
theorem isAllowedUrl_unparseable_false_witness :
    jsHostname "not-a-url" = none ∧
    isAllowedUrl jsHostname "not-a-url" = false :=
  ⟨by decide,
   isAllowedUrl_unparseable_false jsHostname "not-a-url" (by decide) (by decide)⟩

/-! ### C5: shipped isAllowedUrl vs the hardening plan's version -/

/-- C5 counterexample: the shipped `isAllowedUrl` (raw-string anchored
blocked patterns) and the plan's version (hostname-anchored patterns) are
not extensionally equal: on `https://127.x@foo.r2.dev/` the shipped
version returns false (the raw string matches `/^https?:\/\/127\./`)
while the plan's version returns true (the hostname `foo.r2.dev` matches
no hostname pattern and is allowlisted). -/
theorem isAllowedUrl_plan_not_equivalent :
    isAllowedUrl jsHostname "https://127.x@foo.r2.dev/" = false ∧
    isAllowedUrlPlan jsHostname "https://127.x@foo.r2.dev/" = true := by
  decide

/-- C5 amended: the shipped and plan versions are not extensionally
equal; they do agree on every input on which the raw-string blocked test
and the hostname-anchored blocked test coincide (in particular on all
`data:` inputs and all unparseable inputs). -/
theorem isAllowedUrl_plan_agreement (parse : String → Option String) (url : String)
    (h : ∀ host, parse url = some host → blockedSome url = planBlockedHost host) :
    isAllowedUrl parse url = isAllowedUrlPlan parse url := by
  unfold isAllowedUrl isAllowedUrlPlan
  cases hd : jsStartsWith url "data:" with
  | true => rfl
  | false =>
    simp only [Bool.false_eq_true, if_false]
    cases hp : parse url with
    | none => rfl
    | some host => rw [h host hp]

/-- Witness for the amended C5 on an allowlisted storage url. -/
theorem isAllowedUrl_plan_agreement_witness :
    isAllowedUrl jsHostname "https://storage.googleapis.com/b/o" =
      isAllowedUrlPlan jsHostname "https://storage.googleapis.com/b/o" :=
  isAllowedUrl_plan_agreement jsHostname "https://storage.googleapis.com/b/o"
    (by
      intro host hh
      rw [show jsHostname "https://storage.googleapis.com/b/o" =
            some "storage.googleapis.com" from by decide] at hh
      cases hh
      decide)

/-! ### C4: requireServerAuth error precedence -/

/-- C4: `requireServerAuth` throws exactly in these cases and in this
order of precedence: SDK-not-initialized when `adminAuth` is null,
otherwise authentication-required when the token is the empty string,
otherwise invalid-token when the SDK's `verifyIdToken` rejects; in every
other case it returns the uid of the token decoded by the SDK. -/
theorem requireServerAuth_spec (a : Option AdminAuth) (t : String) :
    (a = none →
      requireServerAuth a t = .thrown "Firebase Admin SDK not initialized") ∧
    (∀ auth, a = some auth → t = "" →
      requireServerAuth a t = .thrown "Authentication required") ∧
    (∀ auth, a = some auth → t ≠ "" → auth.verifyIdToken t = none →
      requireServerAuth a t = .thrown "Invalid or expired authentication token") ∧
    (∀ auth decoded, a = some auth → t ≠ "" → auth.verifyIdToken t = some decoded →
      requireServerAuth a t = .ok decoded.uid) := by
  refine ⟨?_, ?_, ?_, ?_⟩
  · rintro rfl
    rfl
  · rintro auth rfl rfl
    rfl
  · rintro auth rfl ht hv
    have hc : (t == "") = false := beq_eq_false_iff_ne.mpr ht
    simp only [requireServerAuth, hc, Bool.false_eq_true, if_false, hv]
  · rintro auth decoded rfl ht hv
    have hc : (t == "") = false := beq_eq_false_iff_ne.mpr ht
    simp only [requireServerAuth, hc, Bool.false_eq_true, if_false, hv]

/-- Witness for C4: the success path on a concrete SDK model, and the
missing-SDK path. -/
theorem requireServerAuth_spec_witness :
    requireServerAuth (some sampleAdminAuth) "good-token" = .ok "user-1" ∧
    requireServerAuth none "good-token" = .thrown "Firebase Admin SDK not initialized" :=
  ⟨(requireServerAuth_spec (some sampleAdminAuth) "good-token").2.2.2 sampleAdminAuth
      ⟨"user-1"⟩ rfl (by decide) rfl,
   (requireServerAuth_spec none "good-token").1 rfl⟩

/-! ### C6: generateAudienceSuggestions error handling -/

/-- C6: `generateAudienceSuggestions` never throws (the embedding returns
a plain `AudienceOutput`, not an exception outcome): when the AI call
fails or yields a result whose output is absent it returns exactly the
hardcoded fallback suggestions, and otherwise it returns the AI call's
output. -/
theorem generateAudienceSuggestions_spec (gen : Except Unit (Option AudienceOutput)) :
    ((gen = .error () ∨ gen = .ok none) →
      generateAudienceSuggestions gen =
        ⟨["Tech Professionals", "Young Parents", "Fitness Enthusiasts",
          "Eco-conscious Foodies"]⟩) ∧
    (∀ output, gen = .ok (some output) → generateAudienceSuggestions gen = output) := by
  constructor
  · rintro (rfl | rfl) <;> rfl
  · rintro output rfl
    rfl

/-- Witness for C6: the fallback on a failed call and the output on a
successful call. -/
theorem generateAudienceSuggestions_spec_witness :
    generateAudienceSuggestions (.error ()) =
      ⟨["Tech Professionals", "Young Parents", "Fitness Enthusiasts",
        "Eco-conscious Foodies"]⟩ ∧
    generateAudienceSuggestions (.ok (some ⟨["Indie Hackers"]⟩)) = ⟨["Indie Hackers"]⟩ :=
  ⟨(generateAudienceSuggestions_spec (.error ())).1 (Or.inl rfl),
   (generateAudienceSuggestions_spec (.ok (some ⟨["Indie Hackers"]⟩))).2
     ⟨["Indie Hackers"]⟩ rfl⟩

/-! ### C8: every returned value has exactly 4 suggestions -/

/-- C8: every value returned by `generateAudienceSuggestions` contains
exactly 4 suggestions: the success path is validated against the zod
schema requiring an array of length 4, and the error-path fallback is a
literal list of 4 strings. -/
theorem generateAudienceSuggestions_length_four
    (modelOutput : Except Unit (Option (List String))) :
    (generateAudienceSuggestions (aiGenerateWithSchema modelOutput)).suggestions.length = 4 := by
  cases modelOutput with
  | error e => rfl
  | ok o =>
    cases o with
    | none => rfl
    | some raw =>
      cases h4 : raw.length == 4 with
      | false =>
        simp only [aiGenerateWithSchema, h4, Bool.false_eq_true, if_false]
        rfl
      | true =>
        simp only [aiGenerateWithSchema, h4, if_true, generateAudienceSuggestions]
        exact beq_iff_eq.mp h4

/-! ### C7: vectoriseLogo error messages -/

/-- C7: `vectoriseLogo` throws `FAL_KEY environment variable is not set`
when the `FAL_KEY` environment variable is missing, and does so before
any external call is made (the result then does not depend on the
subscribe or fetch behavior of the world); when the key is present, every
failure inside the main try block surfaces as a thrown `Error` whose
message begins with `Fal vectorization failed: `. -/
theorem vectoriseLogo_error_spec (w : FalWorld) (logoUrl : String) :
    (w.falKey.getD "" = "" →
      vectoriseLogo w logoUrl = .thrown "FAL_KEY environment variable is not set" ∧
      ∀ w2 : FalWorld, w2.falKey = w.falKey →
        vectoriseLogo w2 logoUrl = vectoriseLogo w logoUrl) ∧
    (w.falKey.getD "" ≠ "" → ∀ msg, vectoriseLogo w logoUrl = .thrown msg →
      jsStartsWith msg "Fal vectorization failed: " = true) := by
  constructor
  · intro hk
    have hc : (w.falKey.getD "" == "") = true := beq_iff_eq.mpr hk
    constructor
    · unfold vectoriseLogo
      rw [if_pos hc]
    · intro w2 h2
      have hc2 : (w2.falKey.getD "" == "") = true := by rw [h2]; exact hc
      unfold vectoriseLogo
      rw [if_pos hc, if_pos hc2]
  · intro hk msg heq
    obtain ⟨falKey, subUrl, fetch⟩ := w
    have hc : (falKey.getD "" == "") = false := beq_eq_false_iff_ne.mpr hk
    cases subUrl with
    | error e =>
      simp only [vectoriseLogo, hc, Bool.false_eq_true, if_false] at heq
      cases heq
      exact jsStartsWith_append_left _ _
    | ok o =>
      cases o with
      | none =>
        simp only [vectoriseLogo, hc, Bool.false_eq_true, if_false] at heq
        cases heq
        exact jsStartsWith_append_left _ _
      | some vurl =>
        cases hv : vurl == "" with
        | true =>
          simp only [vectoriseLogo, hc, hv, Bool.false_eq_true, if_false, if_true] at heq
          cases heq
          exact jsStartsWith_append_left _ _
        | false =>
          cases hf : fetch vurl with
          | error e =>
            simp only [vectoriseLogo, hc, hv, hf, Bool.false_eq_true, if_false] at heq
            cases heq
            exact jsStartsWith_append_left _ _
          | ok resp =>
            cases hok : resp.ok with
            | false =>
              simp only [vectoriseLogo, hc, hv, hf, hok, Bool.false_eq_true, if_false,
                Bool.not_false, if_true] at heq
              cases heq
              exact jsStartsWith_append_left _ _
            | true =>
              simp only [vectoriseLogo, hc, hv, hf, hok, Bool.false_eq_true, if_false,
                Bool.not_true] at heq
              cases heq

/-- Witness for C7: a missing key produces the exact message and makes
the result independent of the external world, and a rejected subscribe
call produces a message with the required beginning. -/
theorem vectoriseLogo_error_spec_witness :
    vectoriseLogo worldNoKeyA "https://x" = .thrown "FAL_KEY environment variable is not set" ∧
    vectoriseLogo worldNoKeyB "https://x" = vectoriseLogo worldNoKeyA "https://x" ∧
    jsStartsWith "Fal vectorization failed: boom" "Fal vectorization failed: " = true :=
  ⟨((vectoriseLogo_error_spec worldNoKeyA "https://x").1 (by decide)).1,
   ((vectoriseLogo_error_spec worldNoKeyA "https://x").1 (by decide)).2 worldNoKeyB rfl,
   (vectoriseLogo_error_spec worldSubscribeRejects "https://x").2 (by decide)
     "Fal vectorization failed: boom" (by decide)⟩
